/-
Verification of resilience-pattern properties of the
Failure-Recovery-Patterns-in-Microservices repository.

Each Python component is shallowly embedded as an executable Lean
definition translated directly from the source; theorems then settle the
stated claims about those definitions.  Timestamps (Python floats from
`time.time()` / `time.monotonic()`) are modelled as rationals; machine
integers as `Nat`/`Int`.
-/
import Mathlib

namespace Micro

/-! ## Orders service: status aggregation (`src/services/orders/main.py`,
`create_order`, lines 371–430).

After `asyncio.gather(..., return_exceptions=True)` the handler inspects
whether each of the two parallel results is an exception and folds them
into `final_status` by two sequential `if`s, then picks the HTTP status. -/

/-- Mirrors the `final_status` computation of `create_order`:
start from `"confirmed"`; if the payment result is an exception set
`"payment_failed"`; if the inventory result is an exception set
`"inventory_failed"` unless the status is already `"payment_failed"`,
in which case set `"failed"`. -/
def finalStatus (paymentFailed inventoryFailed : Bool) : String :=
  let s0 := "confirmed"
  let s1 := if paymentFailed then "payment_failed" else s0
  if inventoryFailed then
    (if s1 ≠ "payment_failed" then "inventory_failed" else "failed")
  else s1

/-- Mirrors `status_code = 201 if final_status == "confirmed" else 202`. -/
def orderHttpStatus (s : String) : Nat :=
  if s = "confirmed" then 201 else 202

/-! ## Retry engine (`src/libs/resilience/retry.py`, `retry_with_backoff`).

The loop is embedded as a recursion on the number of remaining attempts.
The callable `func` is modelled as an oracle giving the outcome of each
attempt; an optional state `σ` is threaded through so the same engine can
later be composed with the stateful circuit breaker.  An outcome is either
a returned `httpx.Response` (identified by its status code) or a raised
exception. -/

/-- Exceptions observable around the retry engine. -/
inductive RunErr where
  /-- one of `httpx.ConnectError`, `httpx.TimeoutException`,
  `httpx.RemoteProtocolError`, `ConnectionError`, `asyncio.TimeoutError` —
  exactly the classes caught by `retry_with_backoff`. -/
  | transport
  /-- Python `httpx.HTTPStatusError` carrying a response with this status. -/
  | httpStatusError (status : Nat)
  /-- Python `fastapi.HTTPException` with this status (bulkhead / breaker rejections). -/
  | httpException (status : Nat)
  /-- Python `RuntimeError` (e.g. "Retry budget exhausted"). -/
  | runtime
  deriving DecidableEq, Repr

/-- Result of running a callable: a returned `httpx.Response` with the given
status code, or a raised exception. -/
inductive RunResult where
  | val (status : Nat)
  | err (e : RunErr)
  deriving DecidableEq, Repr

/-- Observable actions, used to trace which wrapper layers a request passes
through. -/
inductive Act where
  | attemptCall (k : Nat)
  | retrySleep
  | bulkheadEnter
  | bulkheadReject
  | breakerEnter
  | breakerShortCircuit
  deriving DecidableEq, Repr

/-- Mirrors the `RetryConfig` dataclass.  `retryBudget` models the shared
mutable `retry_budget` list: `none` = unlimited. -/
structure RetryConfig where
  maxAttempts : Nat := 3
  baseDelay : ℚ := 1/10
  maxDelay : ℚ := 30
  multiplier : ℚ := 2
  retryableStatusCodes : List Nat := [429, 500, 502, 503, 504]
  retryBudget : Option Int := none

/-- Python `DEFAULT_RETRYABLE_STATUS = frozenset({429, 500, 502, 503, 504})`. -/
def DEFAULT_RETRYABLE_STATUS : List Nat := [429, 500, 502, 503, 504]

/-- The Python condition `config.retry_budget is not None and
config.retry_budget[0] <= 0`. -/
def budgetExhausted : Option Int → Bool
  | none => false
  | some b => decide (b ≤ 0)

/-- Python `config.retry_budget[0] -= 1` (no-op when there is no budget). -/
def decBudget : Option Int → Option Int
  | none => none
  | some b => some (b - 1)

/-- Python `raise last_exc or RuntimeError(...)`. -/
def raiseLast (lastExc : Option RunErr) : RunResult :=
  .err (lastExc.getD .runtime)

/-- The `for attempt in range(config.max_attempts)` loop of
`retry_with_backoff`, by recursion on the remaining number of attempts
(`remaining = config.max_attempts - attempt`).  `inner` is the wrapped
callable, indexed by the attempt number and threading a state `σ`.
Returns the overall result, the number of retries performed (the
`RETRY_ATTEMPTS` increments), the final state and the action trace. -/
def retryGo {σ : Type} (cfg : RetryConfig)
    (inner : Nat → σ → RunResult × σ × List Act) :
    Nat → Nat → Option Int → Option RunErr → σ →
    RunResult × Nat × σ × List Act
  | 0, _, _, lastExc, s =>
      -- loop exhausted: `raise last_exc or RuntimeError("Retry failed ...")`
      (raiseLast lastExc, 0, s, [])
  | r + 1, attempt, budget, lastExc, s =>
      if budgetExhausted budget then
        -- `raise last_exc or RuntimeError("Retry budget exhausted")`
        (raiseLast lastExc, 0, s, [])
      else
        match inner attempt s with
        | (.val st, s1, acts) =>
            -- returned an `httpx.Response`: retry only on a retryable status
            -- and only when `attempt < config.max_attempts - 1`
            if st ∈ cfg.retryableStatusCodes ∧ 0 < r then
              match retryGo cfg inner r (attempt + 1) (decBudget budget)
                  (some (.httpStatusError st)) s1 with
              | (res, n, s2, acts2) =>
                  (res, n + 1, s2, acts ++ [.retrySleep] ++ acts2)
            else
              (.val st, 0, s1, acts)
        | (.err .transport, s1, acts) =>
            -- caught network/timeout exception
            if 0 < r then
              match retryGo cfg inner r (attempt + 1) (decBudget budget)
                  (some .transport) s1 with
              | (res, n, s2, acts2) =>
                  (res, n + 1, s2, acts ++ [.retrySleep] ++ acts2)
            else
              (.err .transport, 0, s1, acts)
        | (.err e, s1, acts) =>
            -- `except Exception: raise` — non-retryable, surfaced as-is
            (.err e, 0, s1, acts)

/-- Python `retry_with_backoff(func, config)` for a stateless callable `func`
whose outcome on attempt `k` is `outcomes k`. -/
def retryRun (cfg : RetryConfig) (outcomes : Nat → RunResult) :
    RunResult × Nat × List Act :=
  match retryGo cfg (fun k _ => (outcomes k, (), [.attemptCall k]))
      cfg.maxAttempts 0 cfg.retryBudget none () with
  | (res, n, _, acts) => (res, n, acts)

/-- An attempt outcome that the retry engine classifies as retryable:
a caught transport exception, or a returned response whose status is in
the configured retryable set. -/
def retryableEvent (cfg : RetryConfig) : RunResult → Prop
  | .val st => st ∈ cfg.retryableStatusCodes
  | .err .transport => True
  | .err _ => False

instance (cfg : RetryConfig) (r : RunResult) : Decidable (retryableEvent cfg r) := by
  cases r with
  | val st => exact inferInstanceAs (Decidable (st ∈ cfg.retryableStatusCodes))
  | err e => cases e <;> simp [retryableEvent] <;> infer_instance

/-! ## Circuit breaker (`src/libs/resilience/circuit_breaker.py`).

The in-process breaker state (`_state`, `_failures`, `_successes_in_half_open`,
`_opened_at`) is embedded as a record; the mutating methods `_get_state`,
`_on_success`, `_on_failure`, `_trip` and `_prune_window` become state
transformers.  Monotonic time is passed in explicitly.  The Python truthiness
test `if self._opened_at and ...` is translated literally: it is false both
when `_opened_at` is `None` and when it equals `0.0`. -/

/-- The `CircuitState` enum. -/
inductive CircuitState where
  | closed
  | open
  | halfOpen
  deriving DecidableEq, Repr

/-- Breaker constructor arguments (defaults from `CircuitBreaker.__init__`). -/
structure BreakerConfig where
  failureThreshold : Nat := 5
  successThreshold : Nat := 2
  openDuration : ℚ := 30
  windowSize : ℚ := 60

/-- The mutable fields of a `CircuitBreaker` instance. -/
structure BreakerState where
  state : CircuitState
  failures : List ℚ
  successesInHalfOpen : Nat
  openedAt : Option ℚ
  deriving DecidableEq, Repr

/-- The state set up by `CircuitBreaker.__init__`. -/
def BreakerState.init : BreakerState :=
  { state := .closed, failures := [], successesInHalfOpen := 0, openedAt := none }

/-- Python `_prune_window`: keep failure timestamps strictly newer than
`now - window_size`. -/
def pruneWindow (cfg : BreakerConfig) (now : ℚ) (failures : List ℚ) : List ℚ :=
  failures.filter (fun t => now - cfg.windowSize < t)

/-- Python `_trip(now)`: move to OPEN and record the opening time. -/
def trip (now : ℚ) (s : BreakerState) : BreakerState :=
  { s with state := .open, openedAt := some now }

/-- Python `_get_state()`: in OPEN, move to HALF_OPEN once `_opened_at` is truthy and
`open_duration` has elapsed; in CLOSED, prune the failure window.  Returns the
observed state together with the updated record. -/
def getState (cfg : BreakerConfig) (now : ℚ) (s : BreakerState) :
    CircuitState × BreakerState :=
  match s.state with
  | .open =>
      match s.openedAt with
      | some t =>
          if t ≠ 0 ∧ cfg.openDuration ≤ now - t then
            (.halfOpen, { s with state := .halfOpen, successesInHalfOpen := 0 })
          else (.open, s)
      | none => (.open, s)
  | .closed => (.closed, { s with failures := pruneWindow cfg now s.failures })
  | .halfOpen => (.halfOpen, s)

/-- Python `_on_success()`. -/
def onSuccess (cfg : BreakerConfig) (s : BreakerState) : BreakerState :=
  match s.state with
  | .halfOpen =>
      let n := s.successesInHalfOpen + 1
      if cfg.successThreshold ≤ n then
        { s with state := .closed, failures := [], successesInHalfOpen := n }
      else { s with successesInHalfOpen := n }
  | _ => s

/-- Python `_on_failure()`: a single failure in HALF_OPEN re-opens; otherwise the
timestamp is appended, the window pruned, and the breaker trips once the
window holds at least `failure_threshold` failures. -/
def onFailure (cfg : BreakerConfig) (now : ℚ) (s : BreakerState) : BreakerState :=
  match s.state with
  | .halfOpen => trip now s
  | _ =>
      let fs := pruneWindow cfg now (s.failures ++ [now])
      let s1 := { s with failures := fs }
      if cfg.failureThreshold ≤ fs.length then trip now s1 else s1

/-- Result of one `CircuitBreaker.call` (no fallback): either the call is
short-circuited because the observed state is OPEN (a 503 `HTTPException` is
raised and `func` is never invoked), or `func` ran with the given outcome. -/
inductive CallResult where
  | shortCircuit
  | invoked (ok : Bool)
  deriving DecidableEq, Repr

/-- Python `CircuitBreaker.call(func)`: observe the state at time `tGet`; if OPEN,
short-circuit; otherwise run `func` (outcome `ok`) and record success or
failure, the failure being stamped at time `tEff`. -/
def breakerCall (cfg : BreakerConfig) (tGet tEff : ℚ) (ok : Bool)
    (s : BreakerState) : CallResult × BreakerState :=
  match getState cfg tGet s with
  | (.open, s1) => (.shortCircuit, s1)
  | (_, s1) =>
      if ok then (.invoked true, onSuccess cfg s1)
      else (.invoked false, onFailure cfg tEff s1)

/-- The states reachable from a freshly constructed breaker by any
interleaving of `_get_state`, `_on_success` and `_on_failure` (the three
primitive transitions out of which `call` is composed). -/
inductive Reach (cfg : BreakerConfig) : BreakerState → Prop where
  | init : Reach cfg BreakerState.init
  | getState {s : BreakerState} (now : ℚ) :
      Reach cfg s → Reach cfg (getState cfg now s).2
  | onSuccess {s : BreakerState} :
      Reach cfg s → Reach cfg (onSuccess cfg s)
  | onFailure {s : BreakerState} (now : ℚ) :
      Reach cfg s → Reach cfg (onFailure cfg now s)

/-! ## Bulkhead (`src/libs/resilience/bulkhead.py`, `Bulkhead.call`).

The `asyncio.Semaphore(max_concurrent)` is modelled by the number of held
slots.  For a single call considered in isolation, `wait_for(acquire(),
timeout=max_wait)` succeeds exactly when a slot is free, i.e. when fewer
than `max_concurrent` slots are held; on timeout the call is rejected with
`HTTPException(503, ..., headers={"Retry-After": "2"})` and the wrapped
callable is never invoked.  On acquisition the slot is released in a
`finally` block, on normal return and on exception alike. -/

/-- Python `Bulkhead.__init__` arguments. -/
structure BulkheadConfig where
  maxConcurrent : Nat := 20
  maxWait : ℚ := 1

/-- Outcome of the wrapped callable `func`. -/
inductive FuncOutcome where
  | ok
  | exn
  deriving DecidableEq, Repr

/-- Observable result of `Bulkhead.call`. -/
inductive BulkheadResult where
  /-- Python `HTTPException` raised on acquisition timeout: status and Retry-After. -/
  | rejected (status : Nat) (retryAfter : String)
  /-- Python `func` returned normally. -/
  | completed
  /-- Python `func` raised; the exception propagates. -/
  | raised
  deriving DecidableEq, Repr

/-- One `Bulkhead.call(func)` starting with `held` slots in use.  Returns the
result, the slots held after the call, whether `func` was invoked, and the
slots held while `func` was running (when it was). -/
def bulkheadCall (cfg : BulkheadConfig) (held : Nat) (f : FuncOutcome) :
    BulkheadResult × Nat × Bool × Option Nat :=
  if cfg.maxConcurrent ≤ held then
    (.rejected 503 "2", held, false, none)
  else
    match f with
    | .ok => (.completed, held, true, some (held + 1))
    | .exn => (.raised, held, true, some (held + 1))

/-! ## Load-shedding middleware (`src/libs/resilience/backpressure.py`,
`BackpressureMiddleware.dispatch`). -/

/-- Python `BackpressureMiddleware.__init__` arguments (`skip_paths` default). -/
structure BackpressureConfig where
  maxInflight : Nat := 100
  skipPaths : List String := ["/health", "/metrics", "/ready"]

/-- Observable result of one `dispatch`. -/
inductive DispatchResult where
  /-- the handler response (status code). -/
  | response (status : Nat)
  /-- shed: `JSONResponse` 429 with the given Retry-After header. -/
  | shed (status : Nat) (retryAfter : String)
  /-- the handler raised; the exception propagates. -/
  | raised
  deriving DecidableEq, Repr

/-- Outcome of `call_next(request)`. -/
inductive HandlerOutcome where
  | ok (status : Nat)
  | exn
  deriving DecidableEq, Repr

/-- One `dispatch` with `inflight` requests currently counted.  Returns the
result, the counter after the request, whether the handler ran, and the
counter value while the handler was running (when it ran). -/
def dispatch (cfg : BackpressureConfig) (inflight : Nat) (path : String)
    (h : HandlerOutcome) : DispatchResult × Nat × Bool × Option Nat :=
  if path ∈ cfg.skipPaths then
    -- exempt path: handler runs, counter untouched
    match h with
    | .ok st => (.response st, inflight, true, some inflight)
    | .exn => (.raised, inflight, true, some inflight)
  else if cfg.maxInflight ≤ inflight then
    (.shed 429 "5", inflight, false, none)
  else
    -- `self._inflight += 1` before `call_next`, `-= 1` in `finally`
    match h with
    | .ok st => (.response st, inflight, true, some (inflight + 1))
    | .exn => (.raised, inflight, true, some (inflight + 1))

/-! ## Timeout configuration (`src/libs/resilience/timeout.py`,
`TimeoutConfig.from_deadline_header`).

The header value is modelled as `none` when absent, empty or unparsable
(`float(...)` raising), and `some d` when it parses to the epoch deadline
`d`; `now` is the value of `time.time()` at construction. -/

/-- The `TimeoutConfig` dataclass. -/
structure TimeoutConfig where
  connectTimeout : ℚ := 2
  readTimeout : ℚ := 10
  writeTimeout : ℚ := 5
  deadline : Option ℚ := none
  deriving DecidableEq, Repr

namespace TimeoutConfig

/-- Python `TimeoutConfig.from_deadline_header`: with a parsed deadline `d`, the
remaining time `d - now` shrinks the per-hop read timeout to
`min(read_timeout, remaining)` when positive, and to `0.001` when the
deadline has already expired. -/
def fromDeadlineHeader (parsed : Option ℚ) (now : ℚ) : TimeoutConfig :=
  let config : TimeoutConfig := {}
  match parsed with
  | none => config
  | some d =>
      let remaining := d - now
      if 0 < remaining then
        { config with deadline := some d,
                      readTimeout := min config.readTimeout remaining }
      else
        { config with deadline := some d, readTimeout := 1/1000 }

end TimeoutConfig

/-! ## Notifications service (`src/services/notifications/main.py`).

Both delivery paths — the HTTP endpoint `receive_event` and the Redis
stream consumer `_redis_stream_consumer` — share the in-process set
`_processed_events` and the log `_event_log`.  A delivery derives its event
id (`f"{event_type}:{aggregate_id}"` on the HTTP path,
`data.get("event_id", str(msg_id))` on the stream path), skips everything
when the id is already processed, and otherwise adds the id to the set and
then performs the side effect (event-log append / notification send). -/

/-- A delivery reaching the notifications process on either path. -/
inductive Delivery where
  | http (eventType aggregateId : String)
  | stream (msgId : String) (dataEventId : Option String)
  deriving DecidableEq, Repr

/-- The event id derived from a delivery. -/
def Delivery.eventId : Delivery → String
  | .http t a => t ++ ":" ++ a
  | .stream m d => d.getD m

/-- The shared in-process state: `_processed_events` and the event ids
appended to `_event_log` (one per side-effect invocation, in order). -/
structure NotifState where
  processedEvents : List String
  eventLog : List String
  deriving DecidableEq, Repr

/-- State at process start. -/
def NotifState.init : NotifState := { processedEvents := [], eventLog := [] }

/-- Primitive steps of handling one delivery, in execution order. -/
inductive NotifAct where
  /-- membership test against `_processed_events`. -/
  | checkProcessed (id : String)
  /-- Python `_processed_events.add(event_id)`. -/
  | insertProcessed (id : String)
  /-- side effect: `_event_log.append(...)` / notification send. -/
  | sideEffect (id : String)
  /-- Python `xack` of the stream message (stream path only). -/
  | ack (msgId : String)
  deriving DecidableEq, Repr

/-- Handle one delivery: the dedup branch performs no side effect (and on the
stream path acks the message); the fresh branch inserts into the set, then
performs the side effect, then acks.  Returns the new state and the action
trace in execution order. -/
def handleDelivery (s : NotifState) (d : Delivery) : NotifState × List NotifAct :=
  let id := d.eventId
  if id ∈ s.processedEvents then
    match d with
    | .http _ _ => (s, [.checkProcessed id])
    | .stream m _ => (s, [.checkProcessed id, .ack m])
  else
    let s1 : NotifState :=
      { processedEvents := id :: s.processedEvents,
        eventLog := s.eventLog ++ [id] }
    match d with
    | .http _ _ => (s1, [.checkProcessed id, .insertProcessed id, .sideEffect id])
    | .stream m _ =>
        (s1, [.checkProcessed id, .insertProcessed id, .sideEffect id, .ack m])

/-- Run a sequence of deliveries from a given state. -/
def runDeliveries (s : NotifState) : List Delivery → NotifState
  | [] => s
  | d :: ds => runDeliveries (handleDelivery s d).1 ds

/-! ## Wrapper composition at the edge and in orders
(`src/services/gateway/main.py` `_forward`,
`src/services/orders/main.py` `_call_payments`).

Both services build each downstream call out of the same three wrappers,
but nest them differently:

* gateway `_forward` runs `retry_with_backoff(_in_bulkhead, ...)` where
  `_in_bulkhead = bulkhead.call(_in_breaker)` and
  `_in_breaker = breaker.call(_do_request)` — retry outermost;
* orders `_call_payments` runs
  `bulkhead.call(lambda: breaker.call(lambda: retry_with_backoff(_do, ...)))`
  — bulkhead outermost.

The embeddings below produce the action trace of one downstream call, so
the nesting order is observable.  In both services `_do_request`/`_do`
calls `resp.raise_for_status()` on any status ≥ 500, turning it into a
raised `httpx.HTTPStatusError`. -/

/-- Python `_do_request` / `_do`: statuses ≥ 500 are raised as
`httpx.HTTPStatusError`, everything else is returned. -/
def doRequest : RunResult → RunResult
  | .val s => if 500 ≤ s then .err (.httpStatusError s) else .val s
  | r => r

/-- One invocation of the gateway function `_in_bulkhead` (attempt `k`, breaker
state threaded): bulkhead admission, then the breaker around
`_do_request`.  `held`/`hmax` model the bulkhead semaphore occupancy and
capacity, `times k` the monotonic clock during attempt `k`, and
`outcomes k` the raw HTTP outcome of attempt `k`. -/
def gatewayInner (bcfg : BreakerConfig) (held hmax : Nat) (times : Nat → ℚ)
    (outcomes : Nat → RunResult) (k : Nat) (bs : BreakerState) :
    RunResult × BreakerState × List Act :=
  if hmax ≤ held then
    (.err (.httpException 503), bs, [.bulkheadReject])
  else
    match getState bcfg (times k) bs with
    | (.open, bs1) =>
        (.err (.httpException 503), bs1, [.bulkheadEnter, .breakerShortCircuit])
    | (_, bs1) =>
        match doRequest (outcomes k) with
        | .val s =>
            (.val s, onSuccess bcfg bs1,
              [.bulkheadEnter, .breakerEnter, .attemptCall k])
        | .err e =>
            (.err e, onFailure bcfg (times k) bs1,
              [.bulkheadEnter, .breakerEnter, .attemptCall k])

/-- Gateway `_forward`: `retry_with_backoff` wrapped around
`_in_bulkhead`. -/
def gatewayForward (rcfg : RetryConfig) (bcfg : BreakerConfig)
    (held hmax : Nat) (times : Nat → ℚ) (outcomes : Nat → RunResult)
    (bs0 : BreakerState) : RunResult × Nat × BreakerState × List Act :=
  retryGo rcfg (gatewayInner bcfg held hmax times outcomes)
    rcfg.maxAttempts 0 rcfg.retryBudget none bs0

/-- Orders `_call_payments` / `_call_inventory`: the bulkhead outermost,
then the breaker, then `retry_with_backoff(_do, ...)` innermost. -/
def ordersDownstreamCall (rcfg : RetryConfig) (bcfg : BreakerConfig)
    (held hmax : Nat) (tGet tEff : ℚ) (outcomes : Nat → RunResult)
    (bs0 : BreakerState) : RunResult × BreakerState × List Act :=
  if hmax ≤ held then
    (.err (.httpException 503), bs0, [.bulkheadReject])
  else
    match getState bcfg tGet bs0 with
    | (.open, bs1) =>
        (.err (.httpException 503), bs1, [.bulkheadEnter, .breakerShortCircuit])
    | (_, bs1) =>
        match retryGo rcfg (fun k _ => (doRequest (outcomes k), (), [.attemptCall k]))
            rcfg.maxAttempts 0 rcfg.retryBudget none () with
        | (res, _, _, tr) =>
            match res with
            | .val s =>
                (.val s, onSuccess bcfg bs1, [.bulkheadEnter, .breakerEnter] ++ tr)
            | .err e =>
                (.err e, onFailure bcfg tEff bs1,
                  [.bulkheadEnter, .breakerEnter] ++ tr)

/-! # Claims -/

/-- C1: For every POST /orders request that reaches orchestration, the final
order status is aggregated from the two fan-out results exactly as: both
payment and inventory succeed gives status "confirmed", payment fails while
inventory succeeds gives "payment_failed", inventory fails while payment
succeeds gives "inventory_failed", both fail gives "failed"; and the HTTP
response status is 201 when the final status is "confirmed" and 202
otherwise. -/
theorem create_order_status_aggregation :
    (finalStatus false false = "confirmed" ∧
      orderHttpStatus (finalStatus false false) = 201) ∧
    (finalStatus true false = "payment_failed" ∧
      orderHttpStatus (finalStatus true false) = 202) ∧
    (finalStatus false true = "inventory_failed" ∧
      orderHttpStatus (finalStatus false true) = 202) ∧
    (finalStatus true true = "failed" ∧
      orderHttpStatus (finalStatus true true) = 202) := by
  decide

/-- C4 (counterexample): with deadline 0 parsed from the header and the clock
at 1 — a deadline that has already passed — the constructed per-hop read
timeout is 0.001, which is not 0 and strictly exceeds max(0, deadline − now);
so the claim as stated fails on the code. -/
theorem from_deadline_header_expired_cex :
    (TimeoutConfig.fromDeadlineHeader (some 0) 1).readTimeout = 1/1000 ∧
    (TimeoutConfig.fromDeadlineHeader (some 0) 1).readTimeout ≠ 0 ∧
    ¬ (TimeoutConfig.fromDeadlineHeader (some 0) 1).readTimeout ≤
        max 0 ((0 : ℚ) - 1) := by
  refine ⟨?_, ?_, ?_⟩ <;> norm_num [TimeoutConfig.fromDeadlineHeader]

/-- Closed form of the read timeout produced by `fromDeadlineHeader` from a
parsed deadline. -/
lemma fromDeadlineHeader_readTimeout (d now : ℚ) :
    (TimeoutConfig.fromDeadlineHeader (some d) now).readTimeout =
      if 0 < d - now then min 10 (d - now) else 1/1000 := by
  unfold TimeoutConfig.fromDeadlineHeader
  dsimp only
  split
  · rfl
  · rfl

/-- C4 (amended): for every parsed deadline value, the per-hop read timeout
is min(local default, deadline − now) when the deadline has not yet passed,
and 0.001 (not 0) when deadline − now ≤ 0; consequently it never exceeds
max(0.001, deadline − now). -/
theorem from_deadline_header_read_timeout (d now : ℚ) :
    (0 < d - now →
      (TimeoutConfig.fromDeadlineHeader (some d) now).readTimeout =
        min 10 (d - now)) ∧
    (d - now ≤ 0 →
      (TimeoutConfig.fromDeadlineHeader (some d) now).readTimeout = 1/1000) ∧
    (TimeoutConfig.fromDeadlineHeader (some d) now).readTimeout ≤
      max (1/1000) (d - now) := by
  rw [fromDeadlineHeader_readTimeout]
  by_cases h : 0 < d - now
  · rw [if_pos h]
    exact ⟨fun _ => rfl, fun hle => absurd h (not_lt.mpr hle),
      le_trans (min_le_right _ _) (le_max_right _ _)⟩
  · rw [if_neg h]
    exact ⟨fun h0 => absurd h0 h, fun _ => rfl, le_max_left _ _⟩

/-- C4 (witness): the amended theorem instantiated at a live deadline
(d = 5, now = 1, timeout 4 seconds) and at an expired one (d = 0, now = 1,
timeout 0.001). -/
theorem from_deadline_header_read_timeout_witness :
    (TimeoutConfig.fromDeadlineHeader (some 5) 1).readTimeout = min 10 (5 - 1) ∧
    (TimeoutConfig.fromDeadlineHeader (some 0) 1).readTimeout = 1/1000 :=
  ⟨(from_deadline_header_read_timeout 5 1).1 (by norm_num),
   (from_deadline_header_read_timeout 0 1).2.1 (by norm_num)⟩

/-- C7: a bulkhead call that gets no admission slot within max_wait is
rejected with a 503 "bulkhead full" failure carrying the Retry-After hint
"2" and the wrapped callable is never invoked, with the slot count
unchanged; a call that acquires a slot releases it on every exit path —
including when the callable raises — so the held count returns to its prior
value, and while the callable runs the held count is at most
max_concurrent. -/
theorem bulkhead_call_spec (cfg : BulkheadConfig) (held : Nat) (f : FuncOutcome) :
    (cfg.maxConcurrent ≤ held →
      bulkheadCall cfg held f = (.rejected 503 "2", held, false, none)) ∧
    (held < cfg.maxConcurrent →
      (bulkheadCall cfg held f).2.1 = held ∧
      (bulkheadCall cfg held f).2.2.1 = true ∧
      (bulkheadCall cfg held f).2.2.2 = some (held + 1) ∧
      held + 1 ≤ cfg.maxConcurrent) := by
  unfold bulkheadCall
  constructor
  · intro h
    rw [if_pos h]
  · intro h
    rw [if_neg (not_le.mpr h)]
    cases f <;> exact ⟨rfl, rfl, rfl, h⟩

/-- C7 (witness): with capacity 1, a call arriving while 1 slot is held is
rejected without invoking the callable; a call arriving while 0 slots are
held whose callable raises still releases its slot. -/
theorem bulkhead_call_spec_witness :
    bulkheadCall { maxConcurrent := 1 } 1 .ok =
      (.rejected 503 "2", 1, false, none) ∧
    ((bulkheadCall { maxConcurrent := 1 } 0 .exn).2.1 = 0 ∧
      (bulkheadCall { maxConcurrent := 1 } 0 .exn).2.2.1 = true ∧
      (bulkheadCall { maxConcurrent := 1 } 0 .exn).2.2.2 = some 1 ∧
      0 + 1 ≤ 1) :=
  ⟨(bulkhead_call_spec { maxConcurrent := 1 } 1 .ok).1 (by decide),
   (bulkhead_call_spec { maxConcurrent := 1 } 0 .exn).2 (by decide)⟩

/-- C8: at the load-shed filter, a request on a non-exempt path arriving
while inflight ≥ max_inflight is rejected with 429 and a Retry-After hint
without invoking the handler or changing the counter; a request arriving
while inflight = max_inflight − 1 is admitted; and every admitted request
runs the handler with the counter incremented, the counter returning to its
prior value on exit including when the handler raises. -/
theorem backpressure_dispatch_spec (cfg : BackpressureConfig) (inflight : Nat)
    (path : String) (h : HandlerOutcome)
    (hpath : path ∉ cfg.skipPaths) :
    (cfg.maxInflight ≤ inflight →
      dispatch cfg inflight path h = (.shed 429 "5", inflight, false, none)) ∧
    (inflight + 1 = cfg.maxInflight →
      (dispatch cfg inflight path h).2.2.1 = true) ∧
    (inflight < cfg.maxInflight →
      (dispatch cfg inflight path h).2.1 = inflight ∧
      (dispatch cfg inflight path h).2.2.1 = true ∧
      (dispatch cfg inflight path h).2.2.2 = some (inflight + 1)) := by
  unfold dispatch
  rw [if_neg hpath]
  refine ⟨fun hge => if_pos hge, ?_, ?_⟩
  · intro he
    rw [if_neg (not_le.mpr (he ▸ Nat.lt_succ_self inflight))]
    cases h <;> rfl
  · intro hlt
    rw [if_neg (not_le.mpr hlt)]
    cases h <;> exact ⟨rfl, rfl, rfl⟩

/-- C8 (witness): with max_inflight = 2 on the non-exempt path "/orders", an
arrival at inflight = 2 is shed with 429/Retry-After and leaves the counter
at 2; an arrival at inflight = 1 = max−1 is admitted, runs the handler at
counter 2, and an exception in the handler still restores the counter
to 1. -/
theorem backpressure_dispatch_spec_witness :
    dispatch { maxInflight := 2 } 2 "/orders" (.ok 200) =
      (.shed 429 "5", 2, false, none) ∧
    (dispatch { maxInflight := 2 } 1 "/orders" .exn).2.2.1 = true ∧
    ((dispatch { maxInflight := 2 } 1 "/orders" .exn).2.1 = 1 ∧
      (dispatch { maxInflight := 2 } 1 "/orders" .exn).2.2.1 = true ∧
      (dispatch { maxInflight := 2 } 1 "/orders" .exn).2.2.2 = some 2) :=
  ⟨(backpressure_dispatch_spec { maxInflight := 2 } 2 "/orders" (.ok 200)
      (by decide)).1 (by decide),
   (backpressure_dispatch_spec { maxInflight := 2 } 1 "/orders" .exn
      (by decide)).2.1 (by decide),
   (backpressure_dispatch_spec { maxInflight := 2 } 1 "/orders" .exn
      (by decide)).2.2 (by decide)⟩

/-- One unfolding of the retry loop at a positive number of remaining
attempts. -/
lemma retryGo_succ {σ : Type} (cfg : RetryConfig)
    (inner : Nat → σ → RunResult × σ × List Act)
    (r attempt : Nat) (budget : Option Int) (lastExc : Option RunErr) (s : σ) :
    retryGo cfg inner (r + 1) attempt budget lastExc s =
      if budgetExhausted budget then (raiseLast lastExc, 0, s, [])
      else
        match inner attempt s with
        | (.val st, s1, acts) =>
            if st ∈ cfg.retryableStatusCodes ∧ 0 < r then
              match retryGo cfg inner r (attempt + 1) (decBudget budget)
                  (some (.httpStatusError st)) s1 with
              | (res, n, s2, acts2) =>
                  (res, n + 1, s2, acts ++ [.retrySleep] ++ acts2)
            else
              (.val st, 0, s1, acts)
        | (.err .transport, s1, acts) =>
            if 0 < r then
              match retryGo cfg inner r (attempt + 1) (decBudget budget)
                  (some .transport) s1 with
              | (res, n, s2, acts2) =>
                  (res, n + 1, s2, acts ++ [.retrySleep] ++ acts2)
            else
              (.err .transport, 0, s1, acts)
        | (.err e, s1, acts) => (.err e, 0, s1, acts) := rfl

/-- If no attempt outcome is classified retryable, the retry loop performs
zero retries, whatever the budget, attempt index and remaining attempts. -/
lemma retryGo_no_retryable_event (cfg : RetryConfig) (outcomes : Nat → RunResult)
    (hnone : ∀ k, ¬ retryableEvent cfg (outcomes k)) :
    ∀ (r attempt : Nat) (budget : Option Int) (lastExc : Option RunErr),
      (retryGo cfg (fun k _ => (outcomes k, (), [.attemptCall k]))
        r attempt budget lastExc ()).2.1 = 0 := by
  intro r
  induction r with
  | zero => intro attempt budget lastExc; rfl
  | succ r _ =>
    intro attempt budget lastExc
    rw [retryGo_succ]
    by_cases hb : budgetExhausted budget
    · rw [if_pos hb]
    · rw [if_neg hb]
      rcases hoc : outcomes attempt with st | e
      · have hst : st ∉ cfg.retryableStatusCodes := by
          intro hmem
          exact hnone attempt (by rw [hoc]; exact hmem)
        simp only [hoc]
        rw [if_neg (fun hc => hst hc.1)]
      · cases e with
        | transport => exact absurd (by rw [hoc]; trivial) (hnone attempt)
        | httpStatusError st => simp only [hoc]
        | httpException st => simp only [hoc]
        | runtime => simp only [hoc]

/-- C2: a completed HTTP response whose status code is not in the configured
retryable set is surfaced to the caller immediately, with zero retry
attempts and no backoff sleep; and an execution none of whose attempt
outcomes is a transport error or a retryable-status response performs zero
retries — only those two outcome classes ever trigger a retry. -/
theorem retry_non_retryable_surfaced_immediately (cfg : RetryConfig)
    (outcomes outcomes2 : Nat → RunResult) (st : Nat)
    (hbudget : budgetExhausted cfg.retryBudget = false)
    (hmax : 0 < cfg.maxAttempts)
    (h0 : outcomes 0 = .val st)
    (hnr : st ∉ cfg.retryableStatusCodes)
    (hnone : ∀ k, ¬ retryableEvent cfg (outcomes2 k)) :
    retryRun cfg outcomes = (.val st, 0, [.attemptCall 0]) ∧
    (retryRun cfg outcomes2).2.1 = 0 := by
  constructor
  · obtain ⟨r, hr⟩ := Nat.exists_eq_add_of_lt hmax
    have key : retryGo cfg (fun k _ => (outcomes k, (), [.attemptCall k]))
        cfg.maxAttempts 0 cfg.retryBudget none () =
        (.val st, 0, (), [.attemptCall 0]) := by
      rw [hr, Nat.zero_add, retryGo_succ, if_neg (by rw [hbudget]; exact Bool.false_ne_true)]
      simp only [h0]
      rw [if_neg (fun hc => hnr hc.1)]
    show (_, _, _) = _
    rw [key]
  · show (retryGo cfg (fun k _ => (outcomes2 k, (), [.attemptCall k]))
        cfg.maxAttempts 0 cfg.retryBudget none ()).2.1 = 0
    exact retryGo_no_retryable_event cfg outcomes2 hnone _ _ _ _

/-- C2 (witness): with the default configuration, a 404 on the first attempt
is returned at once with zero retries, and a run whose every attempt yields
404 performs zero retries. -/
theorem retry_non_retryable_surfaced_immediately_witness :
    retryRun {} (fun k => if k = 0 then .val 404 else .val 200) =
      (.val 404, 0, [.attemptCall 0]) ∧
    (retryRun {} (fun _ => .val 404)).2.1 = 0 :=
  retry_non_retryable_surfaced_immediately {} _ _ 404 rfl (by decide) rfl
    (by decide) (fun k => by simp [retryableEvent])

/-- C9 (counterexample): with max_attempts = 2 and a shared retry budget of
1, a first attempt returning a retryable 503 followed by a permitted-by-
max-attempts second attempt exhausts the budget, and `retry_with_backoff`
raises an `httpx.HTTPStatusError` wrapping the 503 instead of returning the
response: the final permitted attempt completed with a retryable status, yet
the caller observes an exception. -/
theorem retry_budget_exhaustion_raises_cex :
    retryRun { maxAttempts := 2, retryBudget := some 1 }
        (fun k => if k = 0 then .val 503 else .val 200) =
      (.err (.httpStatusError 503), 1, [.attemptCall 0, .retrySleep]) := by
  decide

/-- All earlier attempts being retryable and no budget being configured, the
retry loop reaches its last permitted attempt and surfaces the outcome of that attempt: a returned response — retryable status or not — is returned, and a
transport error is re-raised. -/
lemma retryGo_last_attempt_surfaced (cfg : RetryConfig) (outcomes : Nat → RunResult) :
    ∀ (m attempt : Nat) (lastExc : Option RunErr),
      (∀ k, k < m → retryableEvent cfg (outcomes (attempt + k))) →
      (∀ st, outcomes (attempt + m) = .val st →
        (retryGo cfg (fun k _ => (outcomes k, (), [.attemptCall k]))
          (m + 1) attempt none lastExc ()).1 = .val st) ∧
      (outcomes (attempt + m) = .err .transport →
        (retryGo cfg (fun k _ => (outcomes k, (), [.attemptCall k]))
          (m + 1) attempt none lastExc ()).1 = .err .transport) := by
  intro m
  induction m with
  | zero =>
    intro attempt lastExc _
    rw [retryGo_succ,
      if_neg (fun hc : budgetExhausted none = true => Bool.false_ne_true hc)]
    constructor
    · intro st hst
      rw [Nat.add_zero] at hst
      simp only [hst]
      rw [if_neg (fun hc => absurd hc.2 (lt_irrefl 0))]
    · intro htr
      rw [Nat.add_zero] at htr
      simp only [htr]
      rw [if_neg (lt_irrefl 0)]
  | succ m ih =>
    intro attempt lastExc hall
    have h0 : retryableEvent cfg (outcomes attempt) := by
      have := hall 0 (Nat.succ_pos m)
      rwa [Nat.add_zero] at this
    have hshift : ∀ k, k < m → retryableEvent cfg (outcomes (attempt + 1 + k)) := by
      intro k hk
      have := hall (k + 1) (Nat.succ_lt_succ hk)
      rwa [show attempt + (k + 1) = attempt + 1 + k by omega] at this
    have hidx : attempt + (m + 1) = attempt + 1 + m := by omega
    rw [retryGo_succ,
      if_neg (fun hc : budgetExhausted none = true => Bool.false_ne_true hc)]
    rcases hoc : outcomes attempt with st' | e
    · have hmem : st' ∈ cfg.retryableStatusCodes := by
        rw [hoc] at h0; exact h0
      simp only [hoc]
      rw [if_pos ⟨hmem, Nat.succ_pos m⟩, hidx]
      have key := ih (attempt + 1) (some (.httpStatusError st')) hshift
      exact ⟨fun st hst => key.1 st hst, fun htr => key.2 htr⟩
    · cases e with
      | transport =>
        simp only [hoc]
        rw [if_pos (Nat.succ_pos m), hidx]
        have key := ih (attempt + 1) (some .transport) hshift
        exact ⟨fun st hst => key.1 st hst, fun htr => key.2 htr⟩
      | httpStatusError st => rw [hoc] at h0; exact absurd h0 (by simp [retryableEvent])
      | httpException st => rw [hoc] at h0; exact absurd h0 (by simp [retryableEvent])
      | runtime => rw [hoc] at h0; exact absurd h0 (by simp [retryableEvent])

/-- C9 (amended): in every execution with no shared retry budget configured
in which attempt max_attempts − 1 is reached (all earlier outcomes being
retryable) and completes with an HTTP response, `retry_with_backoff` returns
that response as its value — in particular when its status is in the
retryable set — while a transport-level error on that final attempt is
re-raised.  (With a shared retry budget, budget exhaustion before the next
loop iteration instead raises an `httpx.HTTPStatusError` wrapping the last
retryable response.) -/
theorem retry_final_attempt_response_returned (cfg : RetryConfig)
    (outcomes : Nat → RunResult) (m st : Nat)
    (hm : cfg.maxAttempts = m + 1)
    (hb : cfg.retryBudget = none)
    (hall : ∀ k, k < m → retryableEvent cfg (outcomes k)) :
    (outcomes m = .val st → (retryRun cfg outcomes).1 = .val st) ∧
    (outcomes m = .err .transport →
      (retryRun cfg outcomes).1 = .err .transport) := by
  have key := retryGo_last_attempt_surfaced cfg outcomes m 0 none
    (fun k hk => by rw [Nat.zero_add]; exact hall k hk)
  rw [Nat.zero_add] at key
  have hrun : (retryRun cfg outcomes).1 =
      (retryGo cfg (fun k _ => (outcomes k, (), [.attemptCall k]))
        cfg.maxAttempts 0 cfg.retryBudget none ()).1 := rfl
  rw [hrun, hm, hb]
  exact ⟨fun hst => key.1 st hst, fun htr => key.2 htr⟩

/-- C9 (witness): with max_attempts = 2 and no budget, a transport error on
the first attempt followed by a 503 — a retryable status — on the final
attempt makes `retry_with_backoff` return the 503 response. -/
theorem retry_final_attempt_response_returned_witness :
    (retryRun { maxAttempts := 2 }
        (fun k => if k = 0 then .err .transport else .val 503)).1 = .val 503 :=
  (retry_final_attempt_response_returned { maxAttempts := 2 }
      (fun k => if k = 0 then .err .transport else .val 503) 1 503 rfl rfl
      (fun k hk => by
        have hk0 : k = 0 := Nat.lt_one_iff.mp hk
        subst hk0
        trivial)).1 rfl

/-- C5: whenever a failure is recorded on a closed breaker and the number of
recorded failures whose timestamps lie within the rolling window (after the
new failure is appended and the window pruned) reaches failure_threshold,
the breaker state becomes Open at that failure observation with opened-at
set to the current monotonic time; and any subsequent call made while the
open duration has not yet elapsed short-circuits without invoking the
wrapped operation. -/
theorem breaker_trips_at_threshold (cfg : BreakerConfig) (s : BreakerState)
    (now tNext tEff : ℚ) (ok : Bool)
    (hclosed : s.state = .closed)
    (hcount : cfg.failureThreshold ≤
      (pruneWindow cfg now (s.failures ++ [now])).length)
    (hdur : tNext - now < cfg.openDuration) :
    (onFailure cfg now s).state = .open ∧
    (onFailure cfg now s).openedAt = some now ∧
    (breakerCall cfg tNext tEff ok (onFailure cfg now s)).1 = .shortCircuit := by
  have hof : onFailure cfg now s =
      trip now { s with failures := pruneWindow cfg now (s.failures ++ [now]) } := by
    unfold onFailure
    rw [hclosed]
    dsimp only
    rw [if_pos hcount]
  rw [hof]
  refine ⟨rfl, rfl, ?_⟩
  unfold breakerCall getState trip
  dsimp only
  rw [if_neg (fun hc => absurd hc.2 (not_le.mpr hdur))]

/-- C5 (witness): with the default configuration (threshold 5, window 60 s,
open duration 30 s), a closed breaker holding four failures at time 1 trips
on the fifth failure at time 1, records opened-at = 1, and a call at time 2
(1 second later, within the open duration) short-circuits. -/
theorem breaker_trips_at_threshold_witness :
    (5 ≤ (pruneWindow {} 1 ([1, 1, 1, 1] ++ [1])).length) ∧
    (onFailure {} 1 ⟨.closed, [1, 1, 1, 1], 0, none⟩).state = .open ∧
    (onFailure {} 1 ⟨.closed, [1, 1, 1, 1], 0, none⟩).openedAt = some 1 ∧
    (breakerCall {} 2 2 false
      (onFailure {} 1 ⟨.closed, [1, 1, 1, 1], 0, none⟩)).1 = .shortCircuit := by
  have hcount : ({} : BreakerConfig).failureThreshold ≤
      (pruneWindow {} 1 ([1, 1, 1, 1] ++ [1])).length := by
    norm_num [pruneWindow]
  exact ⟨hcount,
    breaker_trips_at_threshold {} ⟨.closed, [1, 1, 1, 1], 0, none⟩ 1 2 2 false
      rfl hcount (by norm_num)⟩

/-- Python `_get_state` never changes `_opened_at`. -/
lemma getState_openedAt (cfg : BreakerConfig) (now : ℚ) (s : BreakerState) :
    ((getState cfg now s).2).openedAt = s.openedAt := by
  rcases s with ⟨st, fs, n, oa⟩
  cases st
  · rfl
  · cases oa
    · rfl
    · unfold getState
      dsimp only
      split <;> rfl
  · rfl

/-- Python `_get_state` reports Open only from an already-Open state. -/
lemma getState_state_open (cfg : BreakerConfig) (now : ℚ) (s : BreakerState)
    (h : ((getState cfg now s).2).state = .open) : s.state = .open := by
  rcases s with ⟨st, fs, n, oa⟩
  cases st
  · exact h
  · rfl
  · exact h

/-- Python `_on_success` never changes `_opened_at`. -/
lemma onSuccess_openedAt (cfg : BreakerConfig) (s : BreakerState) :
    (onSuccess cfg s).openedAt = s.openedAt := by
  rcases s with ⟨st, fs, n, oa⟩
  cases st
  · rfl
  · rfl
  · unfold onSuccess
    dsimp only
    split <;> rfl

/-- Python `_on_success` reports Open only from an already-Open state. -/
lemma onSuccess_state_open (cfg : BreakerConfig) (s : BreakerState)
    (h : (onSuccess cfg s).state = .open) : s.state = .open := by
  rcases s with ⟨st, fs, n, oa⟩
  cases st
  · exact h
  · rfl
  · unfold onSuccess at h
    dsimp only at h
    by_cases hsp : cfg.successThreshold ≤ n + 1
    · rw [if_pos hsp] at h
      exact absurd h (by intro hh; cases hh)
    · rw [if_neg hsp] at h
      exact h

/-- After `_on_failure`, if the state is Open then `_opened_at` is set
(either the breaker just tripped at `now`, or it was already Open with its
previous `_opened_at`). -/
lemma onFailure_openedAt_of_open (cfg : BreakerConfig) (now : ℚ)
    (s : BreakerState) (hs : s.state = .open → s.openedAt.isSome)
    (h : (onFailure cfg now s).state = .open) :
    (onFailure cfg now s).openedAt.isSome := by
  rcases s with ⟨st, fs, n, oa⟩
  cases st
  · unfold onFailure at h ⊢
    dsimp only at h ⊢
    by_cases hth : cfg.failureThreshold ≤ (pruneWindow cfg now (fs ++ [now])).length
    · rw [if_pos hth]
      rfl
    · rw [if_neg hth] at h
      exact absurd h (by intro hh; cases hh)
  · unfold onFailure at h ⊢
    dsimp only at h ⊢
    by_cases hth : cfg.failureThreshold ≤ (pruneWindow cfg now (fs ++ [now])).length
    · rw [if_pos hth]
      rfl
    · rw [if_neg hth]
      exact hs rfl
  · rfl

/-- C6 (amended): for every circuit breaker and every reachable state of its
state machine, if the current state is Open then the opened-at timestamp is
defined.  (The converse direction of the claimed iff fails: leaving Open
never clears opened-at — see the counterexample.) -/
theorem breaker_openedAt_defined_when_open (cfg : BreakerConfig)
    (s : BreakerState) (hreach : Reach cfg s) (hopen : s.state = .open) :
    s.openedAt.isSome := by
  induction hreach with
  | init => exact absurd hopen (by intro hh; cases hh)
  | getState now _ ih =>
    rw [getState_openedAt]
    exact ih (getState_state_open _ _ _ hopen)
  | onSuccess _ ih =>
    rw [onSuccess_openedAt]
    exact ih (onSuccess_state_open _ _ hopen)
  | onFailure now _ ih => exact onFailure_openedAt_of_open _ _ _ ih hopen

/-- C6 (counterexample): a reachable breaker state — obtained by five
failures at time 1 (which trip the breaker) followed by a `_get_state`
observation at time 100, after the open duration has elapsed — is in
Half-Open while its opened-at timestamp is still defined (= 1): opened-at is
not defined iff the state is Open. -/
theorem breaker_openedAt_halfopen_cex :
    Reach {} (⟨.halfOpen, [1, 1, 1, 1, 1], 0, some 1⟩ : BreakerState) ∧
    (⟨.halfOpen, [1, 1, 1, 1, 1], 0, some 1⟩ : BreakerState).state ≠ .open ∧
    (⟨.halfOpen, [1, 1, 1, 1, 1], 0, some 1⟩ : BreakerState).openedAt.isSome := by
  refine ⟨?_, by decide, rfl⟩
  have h5 : Reach {} (onFailure {} 1 (onFailure {} 1 (onFailure {} 1
      (onFailure {} 1 (onFailure {} 1 BreakerState.init))))) :=
    Reach.onFailure 1 (Reach.onFailure 1 (Reach.onFailure 1
      (Reach.onFailure 1 (Reach.onFailure 1 Reach.init))))
  have h6 := Reach.getState 100 h5
  have he : (getState {} 100 (onFailure {} 1 (onFailure {} 1 (onFailure {} 1
      (onFailure {} 1 (onFailure {} 1 BreakerState.init)))))).2 =
      (⟨.halfOpen, [1, 1, 1, 1, 1], 0, some 1⟩ : BreakerState) := by
    norm_num [getState, onFailure, pruneWindow, trip, BreakerState.init]
  rwa [he] at h6

/-- C6 (amended, witness): the state reached by five failures at time 1 is
Open and reachable, and the amended theorem yields that its opened-at is
defined. -/
theorem breaker_openedAt_defined_when_open_witness :
    (⟨.open, [1, 1, 1, 1, 1], 0, some 1⟩ : BreakerState).state = .open ∧
    (⟨.open, [1, 1, 1, 1, 1], 0, some 1⟩ : BreakerState).openedAt.isSome := by
  have h5 : Reach {} (onFailure {} 1 (onFailure {} 1 (onFailure {} 1
      (onFailure {} 1 (onFailure {} 1 BreakerState.init))))) :=
    Reach.onFailure 1 (Reach.onFailure 1 (Reach.onFailure 1
      (Reach.onFailure 1 (Reach.onFailure 1 Reach.init))))
  have he : onFailure {} 1 (onFailure {} 1 (onFailure {} 1
      (onFailure {} 1 (onFailure {} 1 BreakerState.init)))) =
      (⟨.open, [1, 1, 1, 1, 1], 0, some 1⟩ : BreakerState) := by
    norm_num [onFailure, pruneWindow, trip, BreakerState.init]
  rw [he] at h5
  exact ⟨rfl, breaker_openedAt_defined_when_open {} _ h5 rfl⟩

/-- C3 (code evaluation at the failing input): at the gateway, with free
bulkhead slots (0 of 30 held), a closed breaker, and a forwarded request
whose first attempt returns HTTP 429 (retryable) and whose second attempt
returns 200 — the gateway retry configuration `RetryConfig(max_attempts=3,
base_delay=0.1, max_delay=5.0)` — `_forward` enters the bulkhead twice,
because `retry_with_backoff` is composed outermost; the call succeeds with
the 200 response.  The orders-service `_call_payments` (bulkhead
outermost, as the spec requires) enters the bulkhead exactly once on the
same outcomes. -/
theorem gateway_retry_reenters_bulkhead :
    (((gatewayForward { maxDelay := 5 } {} 0 30 (fun _ => 0)
        (fun k => if k = 0 then .val 429 else .val 200)
        BreakerState.init).2.2.2).count .bulkheadEnter = 2) ∧
    ((gatewayForward { maxDelay := 5 } {} 0 30 (fun _ => 0)
        (fun k => if k = 0 then .val 429 else .val 200)
        BreakerState.init).1 = .val 200) ∧
    (((ordersDownstreamCall { baseDelay := 1/5, maxDelay := 5, retryBudget := some 3 }
        {} 0 20 0 0 (fun k => if k = 0 then .val 429 else .val 200)
        BreakerState.init).2.2).count .bulkheadEnter = 1) := by
  refine ⟨?_, ?_, ?_⟩ <;> decide

/-- After one delivery, the `_processed_events` set and `_event_log`
invariant — every logged id is in the set and no id is logged twice — is
preserved. -/
lemma runDeliveries_nodup (ds : List Delivery) :
    ∀ s : NotifState,
      (∀ id ∈ s.eventLog, id ∈ s.processedEvents) → s.eventLog.Nodup →
      (runDeliveries s ds).eventLog.Nodup := by
  induction ds with
  | nil => intro s _ hnd; exact hnd
  | cons d ds ih =>
    intro s hsub hnd
    show (runDeliveries (handleDelivery s d).1 ds).eventLog.Nodup
    by_cases hmem : d.eventId ∈ s.processedEvents
    · have h1 : (handleDelivery s d).1 = s := by
        unfold handleDelivery
        rw [if_pos hmem]
        cases d <;> rfl
      rw [h1]
      exact ih s hsub hnd
    · have h1 : (handleDelivery s d).1 =
          { processedEvents := d.eventId :: s.processedEvents,
            eventLog := s.eventLog ++ [d.eventId] } := by
        unfold handleDelivery
        rw [if_neg hmem]
        cases d <;> rfl
      rw [h1]
      apply ih
      · intro id hid
        rcases List.mem_append.mp hid with h | h
        · exact List.mem_cons_of_mem _ (hsub id h)
        · rw [List.mem_singleton.mp h]
          exact List.mem_cons_self _ _
      · have hnotin : d.eventId ∉ s.eventLog := fun hin => hmem (hsub _ hin)
        rw [List.nodup_append]
        exact ⟨hnd, List.nodup_singleton _,
          fun a ha hb => hnotin ((List.mem_singleton.mp hb) ▸ ha)⟩

/-- C10: in the notifications service, for every sequence of deliveries on
the HTTP ingestion path and the stream-consumer path, at most one
side-effect invocation (event-log append) occurs per derived event id; and
for every single delivery, a fresh event id is checked against and inserted
into the processed set before the side effect and before the stream ack,
while an already-processed id causes no insertion and no side effect — only
the membership check and, on the stream path, the ack. -/
theorem notifications_at_most_one_side_effect (ds : List Delivery)
    (id : String) (s : NotifState) (d : Delivery) :
    (runDeliveries NotifState.init ds).eventLog.count id ≤ 1 ∧
    (d.eventId ∉ s.processedEvents →
      (handleDelivery s d).2 =
          [.checkProcessed d.eventId, .insertProcessed d.eventId,
            .sideEffect d.eventId] ∨
      ∃ m, (handleDelivery s d).2 =
          [.checkProcessed d.eventId, .insertProcessed d.eventId,
            .sideEffect d.eventId, .ack m]) ∧
    (d.eventId ∈ s.processedEvents →
      (handleDelivery s d).2 = [.checkProcessed d.eventId] ∨
      ∃ m, (handleDelivery s d).2 = [.checkProcessed d.eventId, .ack m]) := by
  refine ⟨?_, ?_, ?_⟩
  · exact List.nodup_iff_count_le_one.mp
      (runDeliveries_nodup ds NotifState.init (by intro id h; cases h)
        List.nodup_nil) id
  · intro hmem
    unfold handleDelivery
    rw [if_neg hmem]
    cases d with
    | http t a => exact Or.inl rfl
    | stream m de => exact Or.inr ⟨m, rfl⟩
  · intro hmem
    unfold handleDelivery
    rw [if_pos hmem]
    cases d with
    | http t a => exact Or.inl rfl
    | stream m de => exact Or.inr ⟨m, rfl⟩

/-- C10 (witness): the same order_created event for aggregate o1 delivered
three times — twice over HTTP, once over the stream — produces exactly one
side effect; a fresh HTTP delivery inserts before its side effect, and a
redelivery to a state that already processed the id performs no side effect. -/
theorem notifications_at_most_one_side_effect_witness :
    (runDeliveries NotifState.init
        [.http "order_created" "o1",
         .stream "m1" (some "order_created:o1"),
         .http "order_created" "o1"]).eventLog.count "order_created:o1" ≤ 1 ∧
    ((handleDelivery NotifState.init (.http "order_created" "o1")).2 =
        [.checkProcessed "order_created:o1", .insertProcessed "order_created:o1",
          .sideEffect "order_created:o1"] ∨
      ∃ m, (handleDelivery NotifState.init (.http "order_created" "o1")).2 =
        [.checkProcessed "order_created:o1", .insertProcessed "order_created:o1",
          .sideEffect "order_created:o1", .ack m]) ∧
    ((handleDelivery ⟨["order_created:o1"], ["order_created:o1"]⟩
          (.stream "m1" (some "order_created:o1"))).2 =
        [.checkProcessed "order_created:o1"] ∨
      ∃ m, (handleDelivery ⟨["order_created:o1"], ["order_created:o1"]⟩
          (.stream "m1" (some "order_created:o1"))).2 =
        [.checkProcessed "order_created:o1", .ack m]) :=
  ⟨(notifications_at_most_one_side_effect
      [.http "order_created" "o1", .stream "m1" (some "order_created:o1"),
        .http "order_created" "o1"]
      "order_created:o1" NotifState.init (.http "order_created" "o1")).1,
   (notifications_at_most_one_side_effect [] "order_created:o1"
      NotifState.init (.http "order_created" "o1")).2.1 (by decide),
   (notifications_at_most_one_side_effect [] "order_created:o1"
      (⟨["order_created:o1"], ["order_created:o1"]⟩ : NotifState)
      (.stream "m1" (some "order_created:o1"))).2.2 (by decide)⟩

end Micro
